import Mathlib

/-!
# Shallow embedding of the Unimus dataset-repository backend

This file embeds, in Lean 4, the parts of the TypeScript backend that the
verified claims are about:

* the tabular preview parser (`server/src/handlers/preview_dataset_file.ts`):
  `parseCSV`, `parseJSON`, `parseARFF`, together with the JavaScript string
  and number primitives they rely on (`String.prototype.trim`, `split`,
  `toLowerCase`, `parseFloat`, `isFinite`, regex quote stripping);
* the curation workflow (`create_curation_review.ts`, `create_dataset.ts`,
  the profile-creation handler): modelled as pure functions over an explicit
  relational state, with the database queries of the source translated to
  list operations;
* the report aggregator (`generate_reports.ts`): SQL aggregation translated
  to list filtering/grouping, including inner-join and left-join semantics;
* the citation formatter (`generate_citation.ts`).

Conventions: file contents are character lists; JavaScript numbers are exact
rationals (`Rat`) with an explicit `finiteAsDouble` overflow guard where the
source calls `isFinite` — IEEE-754 rounding of in-range values affects no
claim, which all concern the classification of cells, counts and statuses,
never printed floating-point digits.  Fallible handlers return `Except`.
-/

namespace Unimus

set_option maxRecDepth 4000

/-- Characters treated as whitespace by JavaScript `String.prototype.trim`
and `/\s/` (restricted to the ASCII range; the inputs relevant to the claims
contain no Unicode whitespace). -/
def jsWhitespace (c : Char) : Bool :=
  c = ' ' || c = '\t' || c = Char.ofNat 10 || c = Char.ofNat 13 ||
  c = Char.ofNat 11 || c = Char.ofNat 12

/-- JavaScript `String.prototype.trim` on a character list. -/
def jsTrim (s : List Char) : List Char :=
  ((s.dropWhile jsWhitespace).reverse.dropWhile jsWhitespace).reverse

/-- JavaScript `String.prototype.split(sep)` for a one-character separator:
`"" ↦ [""]`, separators at the ends produce empty fields. -/
def splitOnChar (sep : Char) : List Char → List (List Char)
  | [] => [[]]
  | c :: cs =>
    match splitOnChar sep cs with
    | [] => [[]]
    | h :: t => if c = sep then [] :: h :: t else (c :: h) :: t

/-- JavaScript `String.prototype.toLowerCase` (ASCII). -/
def jsToLower (s : List Char) : List Char :=
  s.map Char.toLower

/-- Value of a digit string read in base 10. -/
def digitsToNat (ds : List Char) : Nat :=
  ds.foldl (fun acc c => 10 * acc + (c.toNat - 48)) 0

/-- Helper for `splitWs`: accumulates the current maximal run of
non-whitespace characters (in reverse). -/
def splitWsGo : List Char → List Char → List (List Char)
  | [], cur => if cur.isEmpty then [] else [cur.reverse]
  | c :: cs, cur =>
    if jsWhitespace c then
      if cur.isEmpty then splitWsGo cs [] else cur.reverse :: splitWsGo cs []
    else splitWsGo cs (c :: cur)

/-- JavaScript `String.prototype.split(/\s+/)` on an already-trimmed line
(the only way the source calls it): the maximal runs of non-whitespace
characters. -/
def splitWs (s : List Char) : List (List Char) :=
  splitWsGo s []

/-- The longest numeric prefix accepted by JavaScript `parseFloat`:
optional whitespace, optional sign, then either an `Infinity` literal or a
decimal literal `digits [. digits] [exponent]` / `. digits [exponent]`,
where an exponent `e`/`E` is only consumed when at least one digit follows.
Returns the value of the prefix together with the unconsumed suffix, and
`none` when `parseFloat` yields `NaN` or `±Infinity` (no numeric prefix, or
an `Infinity` literal) — the caller's `isFinite` guard rejects exactly
those, so conflating them loses nothing.  The value is the exact rational
denoted by the literal. -/
def jsParseFloatParse (s : List Char) : Option (Rat × List Char) :=
  let s1 := s.dropWhile jsWhitespace
  let signAndRest : Int × List Char :=
    match s1 with
    | c :: rest => if c = '-' then (-1, rest) else if c = '+' then (1, rest) else (1, s1)
    | [] => (1, s1)
  let sgn := signAndRest.1
  let s2 := signAndRest.2
  if ("Infinity".data).isPrefixOf s2 then none
  else
    let intDs := s2.takeWhile Char.isDigit
    let r1 := s2.dropWhile Char.isDigit
    let fracAndRest : List Char × List Char :=
      match r1 with
      | c :: rest =>
        if c = '.' then (rest.takeWhile Char.isDigit, rest.dropWhile Char.isDigit)
        else ([], r1)
      | [] => ([], r1)
    let fracDs := fracAndRest.1
    let r2 := fracAndRest.2
    if intDs = [] ∧ fracDs = [] then none
    else
      let expParse : Int × List Char :=
        match r2 with
        | c :: rest =>
          if c = 'e' ∨ c = 'E' then
            let expSignAndRest : Int × List Char :=
              match rest with
              | d :: rest2 =>
                if d = '-' then (-1, rest2) else if d = '+' then (1, rest2) else (1, rest)
              | [] => (1, rest)
            let expDs := expSignAndRest.2.takeWhile Char.isDigit
            if expDs = [] then (0, r2)
            else (expSignAndRest.1 * (digitsToNat expDs : Int),
                  expSignAndRest.2.dropWhile Char.isDigit)
          else (0, r2)
        | [] => (0, r2)
      -- the exact rational ± (intDigits.fracDigits) · 10^exp, built with
      -- `mkRat` so that concrete tokens evaluate by kernel reduction
      let mantNum : Nat := digitsToNat intDs * 10 ^ fracDs.length + digitsToNat fracDs
      let e := expParse.1
      let value : Rat :=
        if 0 ≤ e then mkRat (sgn * mantNum * 10 ^ e.toNat) (10 ^ fracDs.length)
        else mkRat (sgn * mantNum) (10 ^ fracDs.length * 10 ^ (-e).toNat)
      some (value, expParse.2)

/-- JavaScript `parseFloat` (the value of the longest numeric prefix). -/
def jsParseFloat (s : List Char) : Option Rat :=
  (jsParseFloatParse s).map Prod.fst

/-- JavaScript `isFinite` on the IEEE-754 double nearest to the exact
rational: magnitudes at or above `2^1024 − 2^970` round to infinity, all
smaller magnitudes stay finite.  The comparison `|q| < 2^1024 − 2^970` is
written on numerator and (positive) denominator. -/
def finiteAsDouble (q : Rat) : Bool :=
  q.num.natAbs < q.den * (2 ^ 1024 - 2 ^ 970)

/-- The combined guard of the source's cell typing:
`num = parseFloat(s); !isNaN(num) && isFinite(num)`, returning the parsed
value when it passes. -/
def jsParseFloatFinite (s : List Char) : Option Rat :=
  match jsParseFloat s with
  | some q => if finiteAsDouble q then some q else none
  | none => none

/-- JavaScript `str.replace(/^Q|Q$/g, '')` for a single character `Q`:
removes one leading occurrence, then one trailing occurrence from what
remains. -/
def stripEnds (q : Char) (s : List Char) : List Char :=
  let s1 :=
    match s with
    | c :: rest => if c = q then rest else s
    | [] => []
  match s1.getLast? with
  | some c => if c = q then s1.dropLast else s1
  | none => s1

/-- A preview cell: `null`, a number, or a string
(`(string | number | null)` in the source). -/
inductive Cell where
  | null : Cell
  | num : Rat → Cell
  | str : List Char → Cell
deriving DecidableEq, Repr

/-- The `DatasetPreview` interface of `preview_dataset_file.ts`. -/
structure DatasetPreview where
  headers : List (List Char)
  rows : List (List Cell)
  totalRows : Nat
  fileType : String
deriving DecidableEq, Repr

/-- The `headers: [], rows: [], totalRows: 0` result used on degenerate
inputs. -/
def emptyPreview (fileType : String) : DatasetPreview :=
  { headers := [], rows := [], totalRows := 0, fileType := fileType }

/-- The inner `parseCSVLine` of `parseCSV`: a `"` toggles the in-quotes flag
(and is not kept), a comma outside quotes ends the current token, every
token is trimmed when pushed. -/
def parseCSVLine (line : List Char) : List (List Char) :=
  let step := fun (st : List (List Char) × List Char × Bool) (c : Char) =>
    if c = Char.ofNat 34 then (st.1, st.2.1, !st.2.2)
    else if c = ',' ∧ st.2.2 = false then (st.1 ++ [jsTrim st.2.1], [], st.2.2)
    else (st.1, st.2.1 ++ [c], st.2.2)
  let fin := line.foldl step ([], [], false)
  fin.1 ++ [jsTrim fin.2.1]

/-- Cell typing of `parseCSV`: strip one surrounding `"` pair, map the empty
token and `null` (case-insensitive) to `null`, then `parseFloat` with the
`isFinite` guard, else keep the stripped token. -/
def csvCell (cell : List Char) : Cell :=
  let trimmed := stripEnds (Char.ofNat 34) cell
  if trimmed = [] ∨ jsToLower trimmed = "null".data then Cell.null
  else
    match jsParseFloatFinite trimmed with
    | some q => Cell.num q
    | none => Cell.str trimmed

/-- The non-blank physical lines of a CSV file:
`content.split('\n').filter(line => line.trim())`. -/
def csvLines (content : List Char) : List (List Char) :=
  (splitOnChar (Char.ofNat 10) content).filter (fun l => !(jsTrim l).isEmpty)

/-- `parseCSV` of `preview_dataset_file.ts`: split on newline, drop blank
lines, first line is the header, the next (up to) 20 lines are the data
rows, `totalRows` is the number of non-blank lines minus one. -/
def parseCSV (content : List Char) (fileType : String) : DatasetPreview :=
  match csvLines content with
  | [] => emptyPreview fileType
  | l0 :: rest =>
    { headers := parseCSVLine l0
      rows := (rest.take 20).map (fun l => (parseCSVLine l).map csvCell)
      totalRows := (l0 :: rest).length - 1
      fileType := fileType }

/-- Cell typing of `parseARFF`: strip one surrounding `'` pair, map `?`, the
empty token and `null` (case-insensitive) to `null`, then `parseFloat` with
the `isFinite` guard, else keep the stripped token. -/
def arffCell (val : List Char) : Cell :=
  let cleaned := stripEnds (Char.ofNat 39) val
  if cleaned = "?".data ∨ cleaned = [] ∨ jsToLower cleaned = "null".data then Cell.null
  else
    match jsParseFloatFinite cleaned with
    | some q => Cell.num q
    | none => Cell.str cleaned

/-- The trimmed, non-blank lines of an ARFF file:
`content.split('\n').map(l => l.trim()).filter(l => l)`. -/
def arffLines (content : List Char) : List (List Char) :=
  ((splitOnChar (Char.ofNat 10) content).map jsTrim).filter (fun l => !l.isEmpty)

/-- The `@data` marker test: the trimmed line equals `@data`
case-insensitively. -/
def arffDataMarker (l : List Char) : Bool :=
  jsToLower l == "@data".data

/-- The ARFF comment test: the trimmed line starts with `%`. -/
def arffIsComment (l : List Char) : Bool :=
  ("%".data).isPrefixOf l

/-- The lines after the first `@data` marker (`[]` when there is none). -/
def arffPostLines (content : List Char) : List (List Char) :=
  match (arffLines content).findIdx? arffDataMarker with
  | none => []
  | some i => (arffLines content).drop (i + 1)

/-- `parseARFF` of `preview_dataset_file.ts`: lines are trimmed and blank
lines dropped; without a line equal (case-insensitively) to `@data` the
preview is empty; headers are the second whitespace-separated token of each
`@attribute` line before the marker; the rows are the non-comment lines
among the *first 20 lines* after the marker; `totalRows` counts all
non-comment lines after the marker. -/
def parseARFF (content : List Char) (fileType : String) : DatasetPreview :=
  let lines := arffLines content
  match lines.findIdx? arffDataMarker with
  | none => emptyPreview fileType
  | some i =>
    let headers := (lines.take i).filterMap (fun l =>
      if ("@attribute".data).isPrefixOf (jsToLower l) then
        match splitWs l with
        | _ :: name :: _ => some name
        | _ => none
      else none)
    let post := lines.drop (i + 1)
    let rows := ((post.take 20).filter (fun l => !arffIsComment l)).map (fun l =>
      ((splitOnChar ',' l).map jsTrim).map arffCell)
    { headers := headers
      rows := rows
      totalRows := (post.filter (fun l => !l.isEmpty && !arffIsComment l)).length
      fileType := fileType }

/-- A JavaScript value produced by `JSON.parse`.  Duplicate keys of an object
literal are already resolved by `JSON.parse` (last occurrence wins), so `obj`
carries the de-duplicated field list in insertion order. -/
inductive Json where
  | null : Json
  | bool : Bool → Json
  | num : Rat → Json
  | str : String → Json
  | arr : List Json → Json
  | obj : List (String × Json) → Json

/-- JavaScript `String(n)` for a number in plain decimal notation.  Faithful
for integers and finite decimals in the plain-notation range
(`1e-6 ≤ |n| < 1e21`); the exponential-notation ranges and IEEE-754 rounding
appear in no claim. -/
def jsNumToString (q : Rat) : String :=
  if q.den = 1 then toString q.num
  else
    match (List.range (q.den + 1)).find? (fun k => (q * (10 : Rat) ^ k).den == 1) with
    | some k =>
      let sign := if q < 0 then "-" else ""
      let m : Nat := (|q| * (10 : Rat) ^ k).num.toNat
      let ip := m / 10 ^ k
      let fp := m % 10 ^ k
      let fpStr := toString fp
      let pad := String.mk (List.replicate (k - fpStr.length) '0')
      sign ++ toString ip ++ "." ++ pad ++ fpStr
    | none => toString q.num ++ "/" ++ toString q.den

mutual

/-- JavaScript `String(value)`: `null ↦ "null"`, booleans and numbers print,
arrays join their stringified elements with commas (`null` elements join as
the empty string), plain objects print `[object Object]`. -/
def jsString : Json → String
  | Json.null => "null"
  | Json.bool b => if b then "true" else "false"
  | Json.num q => jsNumToString q
  | Json.str s => s
  | Json.obj _ => "[object Object]"
  | Json.arr xs => String.intercalate "," (jsStringList xs)

/-- Elementwise stringification used by `Array.prototype.join`. -/
def jsStringList : List Json → List String
  | [] => []
  | Json.null :: xs => "" :: jsStringList xs
  | x :: xs => jsString x :: jsStringList xs

end

/-- JavaScript `typeof v === 'object'` (true for `null`, arrays and
objects). -/
def jsTypeofObject : Json → Bool
  | Json.null => true
  | Json.arr _ => true
  | Json.obj _ => true
  | _ => false

/-- JavaScript `typeof v === 'object' && v !== null`. -/
def jsTypeofObjectNonNull : Json → Bool
  | Json.arr _ => true
  | Json.obj _ => true
  | _ => false

/-- JavaScript `Object.keys`: field names of an object, index strings of an
array or a string; throws a `TypeError` (modelled as `Except.error`) on
`null`. -/
def jsKeys : Json → Except Unit (List String)
  | Json.null => Except.error ()
  | Json.obj fields => Except.ok (fields.map Prod.fst)
  | Json.arr xs => Except.ok ((List.range xs.length).map toString)
  | Json.str s => Except.ok ((List.range s.length).map toString)
  | _ => Except.ok []

/-- JavaScript property read `receiver[key]` as used on preview items:
`none` models `undefined`; reading a property of `null` throws a
`TypeError`. -/
def jsGet : Json → String → Except Unit (Option Json)
  | Json.null, _ => Except.error ()
  | Json.obj fields, k => Except.ok ((fields.find? (fun f => f.1 == k)).map Prod.snd)
  | Json.arr xs, k =>
    Except.ok (if k == "length" then some (Json.num xs.length)
      else ((List.range xs.length).find? (fun i => toString i == k)).bind (fun i => xs[i]?))
  | Json.str s, k =>
    Except.ok (if k == "length" then some (Json.num s.length)
      else ((List.range s.data.length).find? (fun i => toString i == k)).bind
        (fun i => (s.data[i]?).map (fun c => Json.str (String.mk [c]))))
  | _, _ => Except.ok none

/-- Cell typing of `parseJSON`: `null`/`undefined` map to the null cell,
numbers stay numeric, everything else is `String(value)`. -/
def jsonCellOfValue : Option Json → Cell
  | none => Cell.null
  | some Json.null => Cell.null
  | some (Json.num q) => Cell.num q
  | some v => Cell.str (jsString v).data

/-- Guard of the first branch of `parseJSON`:
`Array.isArray(data) && data.length > 0 && typeof data[0] === 'object'`. -/
def jsonRecordArray : Json → Bool
  | Json.arr (x :: _) => jsTypeofObject x
  | _ => false

/-- Elements of an array value (used after `jsonRecordArray` held). -/
def jsonArrElems : Json → List Json
  | Json.arr xs => xs
  | _ => []

/-- Left-to-right effectful map for `Except`: the first thrown error wins,
matching JavaScript's evaluation order of `Array.prototype.map`. -/
def exceptMapList {ε α β : Type} (f : α → Except ε β) : List α → Except ε (List β)
  | [] => Except.ok []
  | x :: xs =>
    match f x with
    | Except.error e => Except.error e
    | Except.ok y =>
      match exceptMapList f xs with
      | Except.error e => Except.error e
      | Except.ok ys => Except.ok (y :: ys)

/-- One preview row of `parseJSON`: the item projected onto the headers. -/
def jsonRow (headers : List String) (item : Json) : Except Unit (List Cell) :=
  exceptMapList (fun h => (jsGet item h).map jsonCellOfValue) headers

/-- The body of `parseJSON` after a successful `JSON.parse`.  A `TypeError`
raised inside (e.g. `Object.keys(null)` when the first array element is
`null`, or indexing a `null` item) escapes as `Except.error` to the
surrounding catch. -/
def parseJSONValue (data : Json) (fileType : String) : Except Unit DatasetPreview :=
  if jsonRecordArray data then
    match jsKeys ((jsonArrElems data).headD Json.null) with
    | Except.error e => Except.error e
    | Except.ok headers =>
      match exceptMapList (jsonRow headers) ((jsonArrElems data).take 20) with
      | Except.error e => Except.error e
      | Except.ok rows =>
        Except.ok { headers := headers.map String.data, rows := rows,
                    totalRows := (jsonArrElems data).length, fileType := fileType }
  else if jsTypeofObjectNonNull data then
    match jsKeys data with
    | Except.error e => Except.error e
    | Except.ok headers =>
      match jsonRow headers data with
      | Except.error e => Except.error e
      | Except.ok row =>
        Except.ok { headers := headers.map String.data, rows := [row],
                    totalRows := 1, fileType := fileType }
  else
    Except.ok { headers := ["value".data], rows := [[Cell.str (jsString data).data]],
                totalRows := 1, fileType := fileType }

/-- `parseJSON` of `preview_dataset_file.ts`.  The argument is the result of
`JSON.parse` (`none` models a syntax error); both a parse failure and any
`TypeError` inside the body are recovered into the empty preview by the
handler's `catch`. -/
def parseJSON (data : Option Json) (fileType : String) : DatasetPreview :=
  match data with
  | none => emptyPreview fileType
  | some v =>
    match parseJSONValue v fileType with
    | Except.ok p => p
    | Except.error _ => emptyPreview fileType

/-! ## Relational data model (`db/schema.ts`, `schema.ts`) -/

/-- `user_role` enum. -/
inductive Role where
  | viewer | contributor | curator | admin
deriving DecidableEq, Repr

/-- `dataset_status` enum. -/
inductive DatasetStatus where
  | draft | review | approved | published
deriving DecidableEq, Repr

/-- `curation_review_status` enum. -/
inductive ReviewStatus where
  | pending | approved | rejected
deriving DecidableEq, Repr

/-- `profile_type` enum. -/
inductive ProfileType where
  | lecturer | student
deriving DecidableEq, Repr

/-- A row of `users`.  Timestamps are abstract instants (`Nat`). -/
structure User where
  id : Nat
  email : String
  password : String
  role : Role
  name : Option String
  orcid : Option String
  created_at : Nat
  updated_at : Nat
deriving DecidableEq, Repr

/-- A row of `profiles`. -/
structure Profile where
  id : Nat
  user_id : Nat
  type : ProfileType
  institution : String
  department : String
  orcid : Option String
  created_at : Nat
  updated_at : Nat
deriving DecidableEq, Repr

/-- A row of `datasets`. -/
structure Dataset where
  id : Nat
  title : String
  description : String
  domain : String
  task : String
  license : String
  doi : Option String
  access_level : String
  status : DatasetStatus
  contributor_id : Nat
  publication_year : Int
  created_at : Nat
  updated_at : Nat
deriving DecidableEq, Repr

/-- A row of `curation_reviews`. -/
structure CurationReview where
  id : Nat
  dataset_id : Nat
  reviewer_id : Nat
  status : ReviewStatus
  notes : Option String
  reviewed_at : Nat
  created_at : Nat
deriving DecidableEq, Repr

/-- The relational store: the tables the verified handlers touch. -/
structure DB where
  users : List User
  profiles : List Profile
  datasets : List Dataset
  reviews : List CurationReview
deriving DecidableEq, Repr

/-- The thrown domain errors, tagged by the spec's taxonomy; the payload is
the `Error` message of the source. -/
inductive DomainError where
  | notFound : String → DomainError
  | permissionDenied : String → DomainError
  | conflict : String → DomainError
deriving DecidableEq, Repr

/-- `CreateCurationReviewInput` of `schema.ts`. -/
structure CreateCurationReviewInput where
  dataset_id : Nat
  reviewer_id : Nat
  status : ReviewStatus
  notes : Option String
  reviewed_at : Option Nat
deriving DecidableEq, Repr

/-- `CreateProfileInput` of `schema.ts`. -/
structure CreateProfileInput where
  user_id : Nat
  type : ProfileType
  institution : String
  department : String
  orcid : Option String
deriving DecidableEq, Repr

/-- `CreateDatasetInput` of `schema.ts` (the zod `status` default `draft`
is applied before the handler runs, so `status` is always present). -/
structure CreateDatasetInput where
  title : String
  description : String
  domain : String
  task : String
  license : String
  doi : Option String
  access_level : String
  status : DatasetStatus
  contributor_id : Nat
  publication_year : Int
deriving DecidableEq, Repr

/-! ## Workflow handlers -/

/-- The review row persisted by `createCurationReview`'s insert;
`reviewed_at` defaults to now when unset (`input.reviewed_at || new Date()`;
a present `Date` is always truthy). -/
def newReviewRow (input : CreateCurationReviewInput) (now newId : Nat) : CurationReview :=
  { id := newId
    dataset_id := input.dataset_id
    reviewer_id := input.reviewer_id
    status := input.status
    notes := input.notes
    reviewed_at := input.reviewed_at.getD now
    created_at := now }

/-- The `newDatasetStatus` computation of `createCurationReview`: an
approving review promotes `review` to `approved` (any other current status
stays), a rejecting review always resets to `draft`, a pending review
changes nothing. -/
def reviewNewStatus (current : DatasetStatus) (rs : ReviewStatus) : DatasetStatus :=
  if rs = ReviewStatus.approved then
    if current = DatasetStatus.review then DatasetStatus.approved else current
  else if rs = ReviewStatus.rejected then DatasetStatus.draft
  else current

/-- `createCurationReview` of `create_curation_review.ts`.  `now` stands for
the two `new Date()` calls, `newId` for the serial id the insert returns.
Validates the reviewer (exists, role curator/admin), the dataset (exists)
and per-(dataset, reviewer) uniqueness; then inserts the review
unconditionally, computes the status transition from the review outcome and
the dataset's current status, and rewrites the dataset row only when the
status actually changes. -/
def createCurationReview (db : DB) (input : CreateCurationReviewInput)
    (now newId : Nat) : Except DomainError (DB × CurationReview) :=
  match db.users.find? (fun u => u.id == input.reviewer_id) with
  | none => Except.error (DomainError.notFound "Reviewer not found")
  | some reviewer =>
    if reviewer.role ≠ Role.curator ∧ reviewer.role ≠ Role.admin then
      Except.error (DomainError.permissionDenied "User does not have curator permissions")
    else
      match db.datasets.find? (fun d => d.id == input.dataset_id) with
      | none => Except.error (DomainError.notFound "Dataset not found")
      | some ds =>
        if (db.reviews.filter (fun r =>
            r.dataset_id == input.dataset_id && r.reviewer_id == input.reviewer_id)).length > 0 then
          Except.error (DomainError.conflict "Review already exists for this dataset and reviewer")
        else
          let review := newReviewRow input now newId
          let db1 := { db with reviews := db.reviews ++ [review] }
          let newStatus := reviewNewStatus ds.status input.status
          let db2 :=
            if newStatus ≠ ds.status then
              { db1 with datasets := db1.datasets.map (fun d =>
                  if d.id = input.dataset_id then
                    { d with status := newStatus, updated_at := now }
                  else d) }
            else db1
          Except.ok (db2, review)

/-- `createProfile` (profile-creation handler): the user must exist, and a
second profile for the same user is rejected before the insert. -/
def createProfile (db : DB) (input : CreateProfileInput)
    (now newId : Nat) : Except DomainError (DB × Profile) :=
  match db.users.find? (fun u => u.id == input.user_id) with
  | none =>
    Except.error (DomainError.notFound
      ("User with id " ++ toString input.user_id ++ " does not exist"))
  | some _ =>
    if (db.profiles.filter (fun p => p.user_id == input.user_id)).length > 0 then
      Except.error (DomainError.conflict
        ("User with id " ++ toString input.user_id ++ " already has a profile"))
    else
      let profile : Profile :=
        { id := newId
          user_id := input.user_id
          type := input.type
          institution := input.institution
          department := input.department
          orcid := input.orcid
          created_at := now
          updated_at := now }
      Except.ok ({ db with profiles := db.profiles ++ [profile] }, profile)

/-- The dataset row persisted by `createDataset`'s insert. -/
def newDatasetRow (input : CreateDatasetInput) (now newId : Nat) : Dataset :=
  { id := newId
    title := input.title
    description := input.description
    domain := input.domain
    task := input.task
    license := input.license
    doi := input.doi
    access_level := input.access_level
    status := input.status
    contributor_id := input.contributor_id
    publication_year := input.publication_year
    created_at := now
    updated_at := now }

/-- `createDataset` of `create_dataset.ts`: the contributor must exist and
have a role in `['contributor', 'curator', 'admin']`. -/
def createDataset (db : DB) (input : CreateDatasetInput)
    (now newId : Nat) : Except DomainError (DB × Dataset) :=
  match db.users.find? (fun u => u.id == input.contributor_id) with
  | none => Except.error (DomainError.notFound "Contributor not found")
  | some contributor =>
    if [Role.contributor, Role.curator, Role.admin].contains contributor.role then
      Except.ok ({ db with datasets := db.datasets ++ [newDatasetRow input now newId] },
        newDatasetRow input now newId)
    else
      Except.error (DomainError.permissionDenied "User does not have permission to create datasets")

/-! ## Citation formatter (`generate_citation.ts`) -/

/-- The `Citation` interface. -/
structure Citation where
  apa : String
  ieee : String
deriving DecidableEq, Repr

/-- JavaScript `x || fallback` on a nullable string: the fallback is used
when the string is absent or empty (falsy). -/
def truthyOr (x : Option String) (fallback : String) : String :=
  match x with
  | some s => if s = "" then fallback else s
  | none => fallback

/-- `contributor?.name || contributor?.email || 'Unknown Author'`. -/
def citationAuthor (db : DB) (dataset : Dataset) : String :=
  match db.users.find? (fun u => u.id == dataset.contributor_id) with
  | none => "Unknown Author"
  | some c => truthyOr c.name (truthyOr (some c.email) "Unknown Author")

/-- `dataset.doi ? https://doi.org/{doi} : null` — note the truthiness
check: an empty-string DOI behaves like a missing one. -/
def citationDoiUrl (dataset : Dataset) : Option String :=
  match dataset.doi with
  | some d => if d = "" then none else some ("https://doi.org/" ++ d)
  | none => none

/-- `generateCitation` of `generate_citation.ts`. -/
def generateCitation (db : DB) (dataset : Dataset) : Citation :=
  let authorName := citationAuthor db dataset
  let doiUrl := citationDoiUrl dataset
  { apa := authorName ++ ". (" ++ toString dataset.publication_year ++ "). " ++
      dataset.title ++ " [Dataset]. " ++ (doiUrl.getD "Unimus Repository") ++ "."
    ieee := authorName ++ ", \"" ++ dataset.title ++ ",\" Dataset, " ++
      toString dataset.publication_year ++ "." ++
      (match doiUrl with
       | some u => " [Online]. Available: " ++ u
       | none => " [Database]") }

/-! ## Report aggregator (`generate_reports.ts`)

The drizzle queries are translated to list operations: `WHERE` to `filter`,
`GROUP BY` to grouping over the de-duplicated keys, `INNER JOIN` /
`LEFT JOIN` to the corresponding products.  SQL leaves the relative order of
equal `ORDER BY` keys (and of `GROUP BY` output) unspecified; the embedding
fixes one concrete order — no theorem below depends on that choice. -/

/-- `ReportFilter` of `schema.ts`. -/
structure ReportFilter where
  start_year : Option Int
  end_year : Option Int
  contributor_id : Option Nat
  profile_type : Option ProfileType
  department : Option String
deriving DecidableEq, Repr

/-- The base `conditions` list: `publication_year ≥ start_year`,
`publication_year ≤ end_year`, `contributor_id = c`, each present only when
the filter field is set (an empty list means no `WHERE` clause). -/
def baseFilter (f : ReportFilter) (d : Dataset) : Bool :=
  (match f.start_year with
   | some y => decide (y ≤ d.publication_year)
   | none => true) &&
  (match f.end_year with
   | some y => decide (d.publication_year ≤ y)
   | none => true) &&
  (match f.contributor_id with
   | some c => d.contributor_id == c
   | none => true)

/-- The `profile_type` / `department` conditions under SQL three-valued
logic: on a left-join row without a profile the comparison is `NULL`, so the
row is filtered out whenever either condition is present. -/
def profileFilter (f : ReportFilter) (p : Option Profile) : Bool :=
  (match f.profile_type with
   | some t => match p with
     | some pr => pr.type == t
     | none => false
   | none => true) &&
  (match f.department with
   | some dep => match p with
     | some pr => pr.department == dep
     | none => false
   | none => true)

/-- `FROM datasets INNER JOIN users ON datasets.contributor_id = users.id
LEFT JOIN profiles ON users.id = profiles.user_id`. -/
def contributorJoin (db : DB) : List (Dataset × User × Option Profile) :=
  db.datasets.flatMap (fun d =>
    (db.users.filter (fun u => d.contributor_id == u.id)).flatMap (fun u =>
      match db.profiles.filter (fun p => u.id == p.user_id) with
      | [] => [(d, u, none)]
      | ps => ps.map (fun p => (d, u, some p))))

/-- `FROM datasets INNER JOIN users ON datasets.contributor_id = users.id
INNER JOIN profiles ON users.id = profiles.user_id`. -/
def contributorProfileJoin (db : DB) : List (Dataset × User × Profile) :=
  db.datasets.flatMap (fun d =>
    (db.users.filter (fun u => d.contributor_id == u.id)).flatMap (fun u =>
      (db.profiles.filter (fun p => u.id == p.user_id)).map (fun p => (d, u, p))))

/-- `GROUP BY key` with `count(*)`: one entry per distinct key. -/
def groupCounts {α κ : Type} [DecidableEq κ] (key : α → κ) (rows : List α) :
    List (κ × Nat) :=
  ((rows.map key).dedup).map (fun k =>
    (k, (rows.filter (fun r => key r == k)).length))

/-- Insertion into a list kept in descending order of `val`. -/
def insertDescBy {α : Type} (val : α → Nat) (x : α) : List α → List α
  | [] => [x]
  | y :: ys => if val y < val x then x :: y :: ys else y :: insertDescBy val x ys

/-- `ORDER BY count(*) DESC` as an insertion sort. -/
def sortDescBy {α : Type} (val : α → Nat) : List α → List α
  | [] => []
  | x :: xs => insertDescBy val x (sortDescBy val xs)

/-- Insertion into a list kept in ascending order of `val`. -/
def insertAscBy {α : Type} (val : α → Int) (x : α) : List α → List α
  | [] => [x]
  | y :: ys => if val x < val y then x :: y :: ys else y :: insertAscBy val x ys

/-- `ORDER BY publication_year` (ascending) as an insertion sort. -/
def sortAscBy {α : Type} (val : α → Int) : List α → List α
  | [] => []
  | x :: xs => insertAscBy val x (sortAscBy val xs)

/-- An entry of `datasetsByYear`. -/
structure YearCount where
  year : Int
  count : Nat
deriving DecidableEq, Repr

/-- An entry of `datasetsByContributor`; `contributorName` is
`COALESCE(users.name, users.email)`. -/
structure ContributorCount where
  contributorId : Nat
  contributorName : String
  count : Nat
deriving DecidableEq, Repr

/-- The `studentInvolvement` pair. -/
structure StudentInvolvement where
  studentContributors : Nat
  totalStudentDatasets : Nat
deriving DecidableEq, Repr

/-- An entry of `departmentBreakdown`. -/
structure DepartmentCount where
  department : String
  count : Nat
deriving DecidableEq, Repr

/-- The `DatasetReport` interface. -/
structure DatasetReport where
  totalDatasets : Nat
  datasetsByYear : List YearCount
  datasetsByContributor : List ContributorCount
  studentInvolvement : StudentInvolvement
  departmentBreakdown : List DepartmentCount
deriving DecidableEq, Repr

/-- `generateReports` of `generate_reports.ts`.  `totalDatasets` and
`datasetsByYear` query `datasets` alone under the base conditions;
`datasetsByContributor` adds the profile conditions on the left join;
`studentInvolvement` and `departmentBreakdown` use the inner profile join
(the former with the fixed `profiles.type = 'student'` condition, the latter
with the profile conditions).  The `parseInt(x.toString())` round-trips of
the source are identities on the integer counts. -/
def generateReports (db : DB) (f : ReportFilter) : DatasetReport :=
  let base := db.datasets.filter (baseFilter f)
  let byYear := (sortAscBy (fun e => e.1)
      (groupCounts (fun d => d.publication_year) base)).map (fun e =>
    { year := e.1, count := e.2 })
  let cRows := (contributorJoin db).filter (fun r =>
    baseFilter f r.1 && profileFilter f r.2.2)
  let byContributor := (sortDescBy (fun e => e.2)
      (groupCounts (fun r => (r.1.contributor_id, r.2.1.name, r.2.1.email)) cRows)).map
    (fun e =>
      { contributorId := e.1.1
        contributorName := e.1.2.1.getD e.1.2.2
        count := e.2 })
  let sRows := (contributorProfileJoin db).filter (fun r =>
    r.2.2.type == ProfileType.student && baseFilter f r.1)
  let studentInv : StudentInvolvement :=
    { studentContributors := ((sRows.map (fun r => r.2.1.id)).dedup).length
      totalStudentDatasets := sRows.length }
  let dRows := (contributorProfileJoin db).filter (fun r =>
    baseFilter f r.1 && profileFilter f (some r.2.2))
  let byDept := (sortDescBy (fun e => e.2)
      (groupCounts (fun r => r.2.2.department) dRows)).map (fun e =>
    { department := e.1, count := e.2 })
  { totalDatasets := base.length
    datasetsByYear := byYear
    datasetsByContributor := byContributor
    studentInvolvement := studentInv
    departmentBreakdown := byDept }

/-! ## Definitions transcribed from the specification's words

These are the *claim-side* counterparts used by refinement-style theorems;
each transcribes the sentence of the spec it is compared against, never the
source code. -/

/-- The status-transition function claimed by the spec: an `approved` review
moves the dataset to `approved` iff its prior status was exactly `review`;
`rejected` always resets to `draft`; `pending` never changes the status. -/
def specStatusTransition (prior : DatasetStatus) (rs : ReviewStatus) : DatasetStatus :=
  match rs with
  | ReviewStatus.approved =>
    if prior = DatasetStatus.review then DatasetStatus.approved else prior
  | ReviewStatus.rejected => DatasetStatus.draft
  | ReviewStatus.pending => prior

/-- The spec's cell-typing sentence "the full token parses as a finite
number": the same decimal grammar as `parseFloat`, but required to consume
the entire token, with a value finite as a double. -/
def specFullTokenFiniteNumber (s : List Char) : Option Rat :=
  match jsParseFloatParse s with
  | some (q, []) => if finiteAsDouble q then some q else none
  | _ => none

/-- The spec's "a single key-value record": a JSON object. -/
def specIsRecord : Json → Bool
  | Json.obj _ => true
  | _ => false

/-- The spec's "a non-empty sequence of key-value records". -/
def specIsRecordSeq : Json → Bool
  | Json.arr (x :: xs) => (x :: xs).all specIsRecord
  | _ => false

/-- A report filter with its profile-dependent fields cleared, leaving only
the base filters (year range, contributor). -/
def clearProfileFilters (f : ReportFilter) : ReportFilter :=
  { f with profile_type := none, department := none }

/-! ## Concrete example data for witnesses and counterexamples -/

/-- A curator (example data). -/
def exCurator : User :=
  { id := 1, email := "cur@u.edu", password := "pw", role := Role.curator,
    name := some "A", orcid := none, created_at := 0, updated_at := 0 }

/-- A contributor with no display name (example data). -/
def exContributor : User :=
  { id := 2, email := "con@u.edu", password := "pw", role := Role.contributor,
    name := none, orcid := none, created_at := 0, updated_at := 0 }

/-- A viewer (example data). -/
def exViewer : User :=
  { id := 3, email := "view@u.edu", password := "pw", role := Role.viewer,
    name := none, orcid := none, created_at := 0, updated_at := 0 }

/-- A dataset owned by `exContributor`, parameterised by status (example
data). -/
def exDataset (status : DatasetStatus) : Dataset :=
  { id := 10, title := "T", description := "D", domain := "cs", task := "cls",
    license := "MIT", doi := none, access_level := "public", status := status,
    contributor_id := 2, publication_year := 2022, created_at := 0, updated_at := 0 }

/-- A profile for `exContributor` (example data). -/
def exProfile : Profile :=
  { id := 5, user_id := 2, type := ProfileType.student, institution := "U",
    department := "Math", orcid := none, created_at := 0, updated_at := 0 }

/-- An existing review of `exDataset` by `exCurator` (example data). -/
def exReview : CurationReview :=
  { id := 7, dataset_id := 10, reviewer_id := 1, status := ReviewStatus.pending,
    notes := none, reviewed_at := 0, created_at := 0 }

/-- A database holding the example rows. -/
def exDB : DB :=
  { users := [exCurator, exContributor, exViewer]
    profiles := [exProfile]
    datasets := [exDataset DatasetStatus.review]
    reviews := [] }

/-- An ARFF file whose first line after `@data` is a `%` comment followed by
twenty data lines: 20 non-comment data rows in total, with a comment among
the first 20 physical lines after the marker. -/
def exArffContent : List Char :=
  ("@data\n%c" ++ String.join (List.replicate 20 "\n1")).data

/-- An approving review request by `exCurator` on `exDataset` (example
data). -/
def exApproveInput : CreateCurationReviewInput :=
  { dataset_id := 10, reviewer_id := 1, status := ReviewStatus.approved,
    notes := none, reviewed_at := none }

/-- A pending review request by `exCurator` on `exDataset` (example
data). -/
def exPendingInput : CreateCurationReviewInput :=
  { dataset_id := 10, reviewer_id := 1, status := ReviewStatus.pending,
    notes := none, reviewed_at := none }

/-- The state after `createCurationReview exDB exApproveInput 5 30`. -/
def exDBApproved : DB :=
  { exDB with
      reviews := [newReviewRow exApproveInput 5 30]
      datasets := [{ (exDataset DatasetStatus.review) with
        status := DatasetStatus.approved, updated_at := 5 }] }

/-- The state after `createCurationReview exDB exPendingInput 5 31`. -/
def exDBPending : DB :=
  { exDB with reviews := [newReviewRow exPendingInput 5 31] }

/-- A second-profile request for `exContributor`, who already has
`exProfile` (example data). -/
def exProfileInput : CreateProfileInput :=
  { user_id := 2, type := ProfileType.student, institution := "U",
    department := "Math", orcid := none }

/-- The example database with `exReview` already filed. -/
def exDBWithReview : DB :=
  { exDB with reviews := [exReview] }

/-- A dataset-creation request by `exContributor` (example data). -/
def exDatasetInput : CreateDatasetInput :=
  { title := "T2", description := "D2", domain := "cs", task := "cls",
    license := "MIT", doi := none, access_level := "public",
    status := DatasetStatus.draft, contributor_id := 2, publication_year := 2024 }

/-- The same request with `exViewer` as contributor (example data). -/
def exViewerDatasetInput : CreateDatasetInput :=
  { exDatasetInput with contributor_id := 3 }

/-- `exDataset` with an empty-string DOI and `exCurator` (name `A`) as
contributor (example data). -/
def exDatasetEmptyDoi : Dataset :=
  { (exDataset DatasetStatus.draft) with doi := some "", contributor_id := 1 }

/-- `exDataset` owned by `exCurator` (name `A`), no DOI (example data). -/
def exDatasetByA : Dataset :=
  { (exDataset DatasetStatus.draft) with contributor_id := 1 }

/-- `exDatasetByA` with a non-empty DOI (example data). -/
def exDatasetWithDoi : Dataset :=
  { exDatasetByA with doi := some "10.1/x" }

/-- A report filter carrying both profile-dependent fields (example
data). -/
def exReportFilter : ReportFilter :=
  { start_year := none, end_year := none, contributor_id := none,
    profile_type := some ProfileType.student, department := some "Math" }

/-! ## Helper lemmas -/

/-- A successful `exceptMapList` preserves the length. -/
theorem exceptMapList_ok_length {ε α β : Type} (f : α → Except ε β) :
    ∀ (l : List α) (ys : List β), exceptMapList f l = Except.ok ys → ys.length = l.length := by
  intro l
  induction l with
  | nil =>
    intro ys h
    simp only [exceptMapList] at h
    cases h
    rfl
  | cons x xs ih =>
    intro ys h
    simp only [exceptMapList] at h
    cases hfx : f x with
    | error e => rw [hfx] at h; exact Except.noConfusion h
    | ok y =>
      rw [hfx] at h
      cases hrec : exceptMapList f xs with
      | error e => rw [hrec] at h; exact Except.noConfusion h
      | ok ys' =>
        rw [hrec] at h
        cases h
        simp [ih ys' hrec]

/-! ## C5: parse failures are recovered into the empty preview -/

/-- **C5** (`error_handling`): the preview parser never propagates a parse
error: a JSON document that fails `JSON.parse` yields exactly
`{headers: [], rows: [], totalRows: 0}`, and an ARFF document none of whose
(trimmed) lines equals `@data` case-insensitively yields the same empty
preview — no error is thrown or signalled. -/
theorem previewRecoversParseFailures :
    (∀ fileType, parseJSON none fileType = emptyPreview fileType)
    ∧ (∀ content fileType,
        (∀ l ∈ arffLines content, arffDataMarker l = false) →
        parseARFF content fileType = emptyPreview fileType) := by
  constructor
  · intro ft
    rfl
  · intro content ft h
    have hidx : (arffLines content).findIdx? arffDataMarker = none :=
      List.findIdx?_eq_none_iff.mpr h
    simp only [parseARFF, hidx]

/-- Witness for C5 at concrete inputs: an unparsable JSON document and an
ARFF file with no `@data` marker both produce the empty preview. -/
theorem previewRecoversParseFailures_witness :
    parseJSON none "json" = emptyPreview "json"
    ∧ parseARFF "@relation r\nfoo,bar".data "arff" = emptyPreview "arff" :=
  ⟨previewRecoversParseFailures.1 "json",
   previewRecoversParseFailures.2 "@relation r\nfoo,bar".data "arff" (by decide)⟩

/-! ## C8: the JSON fallback branch -/

/-- **C8 counterexample**: the empty array `[]` is neither a non-empty
sequence of key-value records nor a single key-value record, yet the
preview is `{headers: [], rows: [[]], totalRows: 1}`, not the claimed
`{headers: ['value'], rows: [[String(data)]], totalRows: 1}` — in
JavaScript an array is an object, so `[]` takes the single-record branch
with its (empty) index keys. -/
theorem jsonFallbackCounterexample :
    specIsRecordSeq (Json.arr []) = false
    ∧ specIsRecord (Json.arr []) = false
    ∧ parseJSON (some (Json.arr [])) "json"
        = { headers := [], rows := [[]], totalRows := 1, fileType := "json" }
    ∧ parseJSON (some (Json.arr [])) "json"
        ≠ { headers := ["value".data], rows := [[Cell.str (jsString (Json.arr [])).data]],
            totalRows := 1, fileType := "json" } := by
  refine ⟨rfl, rfl, rfl, ?_⟩
  decide

/-- **C8 amended**: the `'value'` fallback fires exactly for parsed values
that are not objects in the JavaScript sense — primitives (string, number,
boolean) and `null`; arrays (empty or of non-records) and objects always
take the record branches instead. -/
theorem jsonPrimitiveFallback :
    ∀ (j : Json) (fileType : String),
    jsTypeofObjectNonNull j = false →
    parseJSON (some j) fileType
      = { headers := ["value".data], rows := [[Cell.str (jsString j).data]],
          totalRows := 1, fileType := fileType } := by
  intro j ft h
  have hra : jsonRecordArray j = false := by
    cases j <;> simp_all [jsonRecordArray, jsTypeofObjectNonNull]
  simp [parseJSON, parseJSONValue, hra, h]

/-- Witness for C8 (amended) at the primitive value `"hi"`. -/
theorem jsonPrimitiveFallback_witness :
    parseJSON (some (Json.str "hi")) "json"
      = { headers := ["value".data], rows := [[Cell.str "hi".data]],
          totalRows := 1, fileType := "json" } :=
  jsonPrimitiveFallback (Json.str "hi") "json" rfl

/-! ## C2: cell typing -/

/-- **C2 counterexample**: the token `12abc` does not parse *fully* as a
finite number, yet both cell typers emit a number — `parseFloat` accepts the
longest numeric prefix (`12`), so the claim's "a token that does not fully
parse as a finite number is never emitted as a number" fails, also end to
end through `parseCSV`. -/
theorem cellPrefixParseCounterexample :
    csvCell "12abc".data = Cell.num 12
    ∧ specFullTokenFiniteNumber (stripEnds (Char.ofNat 34) "12abc".data) = none
    ∧ arffCell "12abc".data = Cell.num 12
    ∧ specFullTokenFiniteNumber (stripEnds (Char.ofNat 39) "12abc".data) = none
    ∧ parseCSV "a\n12abc".data "csv"
        = { headers := [['a']], rows := [[Cell.num 12]], totalRows := 1, fileType := "csv" } := by
  decide

/-- **C2 amended**: for every cell token, of the CSV preview (quote `"`) or
the ARFF preview (quote `'`): the cell is `null` exactly when the
quote-stripped token is empty, `null` in any letter case, or (ARFF only)
`?`; otherwise the cell is numeric exactly when the token's longest numeric
prefix (JavaScript `parseFloat`) exists and denotes a double-finite value —
in particular whenever the full token parses as a finite number — carrying
that prefix's value; in every other case the cell is the quote-stripped
token string. -/
theorem cellTypingAmended :
    ∀ tok : List Char,
    ((csvCell tok = Cell.null) ↔
      (stripEnds (Char.ofNat 34) tok = [] ∨
       jsToLower (stripEnds (Char.ofNat 34) tok) = "null".data))
    ∧ (∀ q, csvCell tok = Cell.num q ↔
      (¬(stripEnds (Char.ofNat 34) tok = [] ∨
         jsToLower (stripEnds (Char.ofNat 34) tok) = "null".data)
       ∧ jsParseFloatFinite (stripEnds (Char.ofNat 34) tok) = some q))
    ∧ (∀ s, csvCell tok = Cell.str s ↔
      (¬(stripEnds (Char.ofNat 34) tok = [] ∨
         jsToLower (stripEnds (Char.ofNat 34) tok) = "null".data)
       ∧ jsParseFloatFinite (stripEnds (Char.ofNat 34) tok) = none
       ∧ stripEnds (Char.ofNat 34) tok = s))
    ∧ (∀ q, specFullTokenFiniteNumber (stripEnds (Char.ofNat 34) tok) = some q →
        jsParseFloatFinite (stripEnds (Char.ofNat 34) tok) = some q)
    ∧ ((arffCell tok = Cell.null) ↔
      (stripEnds (Char.ofNat 39) tok = "?".data ∨
       stripEnds (Char.ofNat 39) tok = [] ∨
       jsToLower (stripEnds (Char.ofNat 39) tok) = "null".data))
    ∧ (∀ q, arffCell tok = Cell.num q ↔
      (¬(stripEnds (Char.ofNat 39) tok = "?".data ∨
         stripEnds (Char.ofNat 39) tok = [] ∨
         jsToLower (stripEnds (Char.ofNat 39) tok) = "null".data)
       ∧ jsParseFloatFinite (stripEnds (Char.ofNat 39) tok) = some q))
    ∧ (∀ s, arffCell tok = Cell.str s ↔
      (¬(stripEnds (Char.ofNat 39) tok = "?".data ∨
         stripEnds (Char.ofNat 39) tok = [] ∨
         jsToLower (stripEnds (Char.ofNat 39) tok) = "null".data)
       ∧ jsParseFloatFinite (stripEnds (Char.ofNat 39) tok) = none
       ∧ stripEnds (Char.ofNat 39) tok = s))
    ∧ (∀ q, specFullTokenFiniteNumber (stripEnds (Char.ofNat 39) tok) = some q →
        jsParseFloatFinite (stripEnds (Char.ofNat 39) tok) = some q) := by
  intro tok
  have hfull : ∀ s q, specFullTokenFiniteNumber s = some q → jsParseFloatFinite s = some q := by
    intro s q hq
    unfold specFullTokenFiniteNumber at hq
    cases hp : jsParseFloatParse s with
    | none => rw [hp] at hq; exact Option.noConfusion hq
    | some pr =>
      obtain ⟨q', rest⟩ := pr
      rw [hp] at hq
      cases rest with
      | nil =>
        simp only at hq
        unfold jsParseFloatFinite jsParseFloat
        rw [hp]
        split at hq
        · cases hq
          simp [*]
        · exact Option.noConfusion hq
      | cons c cs => exact Option.noConfusion hq
  refine ⟨?_, ?_, ?_, hfull _, ?_, ?_, ?_, hfull _⟩
  · by_cases h : (stripEnds (Char.ofNat 34) tok = [] ∨
        jsToLower (stripEnds (Char.ofNat 34) tok) = "null".data)
    · simp [csvCell, h]
    · cases hpf : jsParseFloatFinite (stripEnds (Char.ofNat 34) tok) <;>
        simp [csvCell, h, hpf]
  · intro q
    by_cases h : (stripEnds (Char.ofNat 34) tok = [] ∨
        jsToLower (stripEnds (Char.ofNat 34) tok) = "null".data)
    · simp [csvCell, h]
    · cases hpf : jsParseFloatFinite (stripEnds (Char.ofNat 34) tok) <;>
        simp [csvCell, h, hpf]
  · intro s
    by_cases h : (stripEnds (Char.ofNat 34) tok = [] ∨
        jsToLower (stripEnds (Char.ofNat 34) tok) = "null".data)
    · simp [csvCell, h]
    · cases hpf : jsParseFloatFinite (stripEnds (Char.ofNat 34) tok) <;>
        simp [csvCell, h, hpf]
  · by_cases h : (stripEnds (Char.ofNat 39) tok = "?".data ∨
        stripEnds (Char.ofNat 39) tok = [] ∨
        jsToLower (stripEnds (Char.ofNat 39) tok) = "null".data)
    · simp [arffCell, h]
    · cases hpf : jsParseFloatFinite (stripEnds (Char.ofNat 39) tok) <;>
        simp [arffCell, h, hpf]
  · intro q
    by_cases h : (stripEnds (Char.ofNat 39) tok = "?".data ∨
        stripEnds (Char.ofNat 39) tok = [] ∨
        jsToLower (stripEnds (Char.ofNat 39) tok) = "null".data)
    · simp [arffCell, h]
    · cases hpf : jsParseFloatFinite (stripEnds (Char.ofNat 39) tok) <;>
        simp [arffCell, h, hpf]
  · intro s
    by_cases h : (stripEnds (Char.ofNat 39) tok = "?".data ∨
        stripEnds (Char.ofNat 39) tok = [] ∨
        jsToLower (stripEnds (Char.ofNat 39) tok) = "null".data)
    · simp [arffCell, h]
    · cases hpf : jsParseFloatFinite (stripEnds (Char.ofNat 39) tok) <;>
        simp [arffCell, h, hpf]

/-- Witness for C2 (amended) at concrete tokens: `7` is numeric, a bare `?`
is the ARFF null. -/
theorem cellTypingAmended_witness :
    csvCell "7".data = Cell.num 7 ∧ arffCell "?".data = Cell.null :=
  ⟨((cellTypingAmended "7".data).2.1 7).mpr ⟨by decide, by decide⟩,
   (cellTypingAmended "?".data).2.2.2.2.1.mpr (by decide)⟩

/-! ## C3: the 20-row preview cap -/

/-- Shape of a successful `parseJSONValue` run: the row list is capped at
20, `totalRows` is the sequence length in the record-array branch and `1`
otherwise. -/
theorem parseJSONValue_ok_shape (v : Json) (ft : String) (p : DatasetPreview)
    (h : parseJSONValue v ft = Except.ok p) :
    p.rows.length = min p.totalRows 20
    ∧ (jsonRecordArray v = true → p.totalRows = (jsonArrElems v).length) := by
  unfold parseJSONValue at h
  by_cases hra : jsonRecordArray v
  · rw [if_pos hra] at h
    cases hk : jsKeys ((jsonArrElems v).headD Json.null) with
    | error e =>
      rw [hk] at h
      exact Except.noConfusion h
    | ok hs =>
      rw [hk] at h
      dsimp only at h
      cases hr : exceptMapList (jsonRow hs) ((jsonArrElems v).take 20) with
      | error e =>
        rw [hr] at h
        exact Except.noConfusion h
      | ok rows =>
        rw [hr] at h
        cases h
        have hlen := exceptMapList_ok_length _ _ _ hr
        constructor
        · simp [hlen, List.length_take, Nat.min_comm]
        · intro
          rfl
  · rw [if_neg hra] at h
    by_cases hon : jsTypeofObjectNonNull v
    · rw [if_pos hon] at h
      cases hk : jsKeys v with
      | error e =>
        rw [hk] at h
        exact Except.noConfusion h
      | ok hs =>
        rw [hk] at h
        dsimp only at h
        cases hr : jsonRow hs v with
        | error e =>
          rw [hr] at h
          exact Except.noConfusion h
        | ok row =>
          rw [hr] at h
          cases h
          exact ⟨rfl, fun hc => absurd hc (by simp [hra])⟩
    · rw [if_neg hon] at h
      cases h
      exact ⟨rfl, fun hc => absurd hc (by simp [hra])⟩

/-- **C3 counterexample**: on `exArffContent` (a `%` comment directly after
`@data`, then 20 data lines) the preview holds 19 rows although
`min(totalRows, 20) = 20` — the ARFF parser caps the *raw* lines after
`@data` at 20 before dropping comments.  And a JSON array of three numbers
is a sequence of length 3, yet `totalRows = 1` — a non-record array takes
the single-object branch. -/
theorem previewRowCapCounterexample :
    (parseARFF exArffContent "arff").rows.length = 19
    ∧ (parseARFF exArffContent "arff").totalRows = 20
    ∧ min (parseARFF exArffContent "arff").totalRows 20 = 20
    ∧ (jsonArrElems (Json.arr [Json.num 1, Json.num 2, Json.num 3])).length = 3
    ∧ (parseJSON (some (Json.arr [Json.num 1, Json.num 2, Json.num 3])) "json").totalRows = 1 := by
  decide

/-- **C3 amended**: for CSV the preview holds exactly
`min(totalRows, 20)` rows with `totalRows` = non-blank lines minus the
header; for JSON it holds `min(totalRows, 20)` rows, where `totalRows` is
the sequence length exactly in the non-empty-record-sequence branch (1 for
any other parsed document, 0 on failure); for ARFF the 20-line cap is
applied to the raw lines after `@data` *before* comment filtering, so the
preview holds the non-comment lines among the first 20 — at most, but not
always, `min(totalRows, 20)` — while `totalRows` counts all non-comment
lines after the marker. -/
theorem previewRowCap :
    (∀ content fileType,
      (parseCSV content fileType).rows.length = min (parseCSV content fileType).totalRows 20
      ∧ (parseCSV content fileType).totalRows = (csvLines content).length - 1)
    ∧ (∀ (data : Option Json) fileType,
      (parseJSON data fileType).rows.length = min (parseJSON data fileType).totalRows 20
      ∧ (∀ v p, data = some v → parseJSONValue v fileType = Except.ok p →
          jsonRecordArray v = true →
          (parseJSON data fileType).totalRows = (jsonArrElems v).length))
    ∧ (∀ content fileType,
      (parseARFF content fileType).totalRows
        = ((arffPostLines content).filter (fun l => !l.isEmpty && !arffIsComment l)).length
      ∧ (parseARFF content fileType).rows.length
        = (((arffPostLines content).take 20).filter (fun l => !arffIsComment l)).length
      ∧ (parseARFF content fileType).rows.length
          ≤ min (parseARFF content fileType).totalRows 20) := by
  refine ⟨?_, ?_, ?_⟩
  · intro content ft
    cases h : csvLines content with
    | nil => simp [parseCSV, h, emptyPreview]
    | cons l0 rest =>
      constructor
      · simp [parseCSV, h, List.length_take, Nat.min_comm]
      · simp [parseCSV, h]
  · intro data ft
    cases data with
    | none =>
      refine ⟨by simp [parseJSON, emptyPreview], ?_⟩
      intro v p hv
      exact Option.noConfusion hv
    | some v =>
      cases hp : parseJSONValue v ft with
      | error e =>
        refine ⟨by simp [parseJSON, hp, emptyPreview], ?_⟩
        intro w p hw hpok
        cases hw
        rw [hp] at hpok
        exact Except.noConfusion hpok
      | ok p =>
        have hs := parseJSONValue_ok_shape v ft p hp
        refine ⟨by simpa [parseJSON, hp] using hs.1, ?_⟩
        intro w p' hw hpok hra
        cases hw
        rw [hp] at hpok
        cases hpok
        simpa [parseJSON, hp] using hs.2 hra
  · intro content ft
    cases h : (arffLines content).findIdx? arffDataMarker with
    | none => simp [parseARFF, arffPostLines, h, emptyPreview]
    | some i =>
      have hpost : arffPostLines content = (arffLines content).drop (i + 1) := by
        simp [arffPostLines, h]
      refine ⟨?_, ?_, ?_⟩
      · simp [parseARFF, h, hpost]
      · simp [parseARFF, h, hpost]
      · have hne : ∀ l ∈ (arffLines content).drop (i + 1), l.isEmpty = false := by
          intro l hl
          have hmem : l ∈ arffLines content := (List.drop_sublist _ _).mem hl
          have := (List.mem_filter.mp hmem).2
          simpa using this
        have hcongr : ((arffLines content).drop (i + 1)).filter
              (fun l => !l.isEmpty && !arffIsComment l)
            = ((arffLines content).drop (i + 1)).filter (fun l => !arffIsComment l) := by
          refine List.filter_congr ?_
          intro l hl
          simp [hne l hl]
        apply Nat.le_min.mpr
        constructor
        · -- at most the unbounded non-comment count
          simp only [parseARFF, h]
          rw [hcongr, List.length_map]
          exact ((List.take_sublist _ _).filter _).length_le
        · -- at most 20
          simp only [parseARFF, h]
          rw [List.length_map]
          exact (List.length_filter_le _ _).trans (by simp [List.length_take])

/-- Witness for C3 (amended) at concrete inputs: the spec's CSV scenario,
a one-record JSON sequence, and the comment-bearing ARFF example. -/
theorem previewRowCap_witness :
    (parseCSV "a,b\n1,2\n,null".data "csv").rows.length
        = min (parseCSV "a,b\n1,2\n,null".data "csv").totalRows 20
    ∧ (parseJSON (some (Json.arr [Json.obj [("a", Json.num 1)]])) "json").totalRows
        = (jsonArrElems (Json.arr [Json.obj [("a", Json.num 1)]])).length
    ∧ (parseARFF exArffContent "arff").rows.length
        ≤ min (parseARFF exArffContent "arff").totalRows 20 :=
  ⟨(previewRowCap.1 "a,b\n1,2\n,null".data "csv").1,
   (previewRowCap.2.1 (some (Json.arr [Json.obj [("a", Json.num 1)]])) "json").2
     (Json.arr [Json.obj [("a", Json.num 1)]])
     { headers := ["a".data], rows := [[Cell.num 1]], totalRows := 1, fileType := "json" }
     rfl rfl rfl,
   (previewRowCap.2.2 exArffContent "arff").2.2⟩

/-! ## Workflow theorems (C1, C10, C6, C7) -/

/-- The source's `newDatasetStatus` computation coincides with the
transition function the spec claims. -/
theorem reviewNewStatus_eq_spec (prior : DatasetStatus) (rs : ReviewStatus) :
    reviewNewStatus prior rs = specStatusTransition prior rs := by
  cases rs <;> cases prior <;> rfl

/-- `find?` by id commutes with the status-update map of
`createCurationReview`. -/
theorem find?_updateById (l : List Dataset) (t : Nat) (ns : DatasetStatus) (now : Nat)
    (ds : Dataset) (h : l.find? (fun d => d.id == t) = some ds) :
    (l.map (fun d => if d.id = t then { d with status := ns, updated_at := now } else d)).find?
        (fun d => d.id == t)
      = some { ds with status := ns, updated_at := now } := by
  induction l with
  | nil => simp at h
  | cons d rest ih =>
    rw [List.map_cons]
    by_cases hp : (d.id == t) = true
    · have h1 : (d :: rest).find? (fun x => x.id == t) = some d :=
        List.find?_cons_of_pos rest hp
      rw [h1] at h
      injection h with h'
      subst h'
      have hid : d.id = t := by simpa using hp
      rw [if_pos hid]
      exact List.find?_cons_of_pos _ (by simp [hid])
    · have h1 : (d :: rest).find? (fun x => x.id == t) = rest.find? (fun x => x.id == t) :=
        List.find?_cons_of_neg rest hp
      rw [h1] at h
      have hid : ¬d.id = t := by simpa using hp
      rw [if_neg hid]
      have h2 : (d :: rest.map (fun d => if d.id = t then
            { d with status := ns, updated_at := now } else d)).find? (fun x => x.id == t)
          = (rest.map (fun d => if d.id = t then
            { d with status := ns, updated_at := now } else d)).find? (fun x => x.id == t) :=
        List.find?_cons_of_neg _ hp
      rw [h2]
      exact ih h

/-- Characterisation of every successful `createCurationReview` run: the
dataset was found, the returned review is the inserted row, and the final
state extends the reviews table and rewrites dataset statuses exactly when
the computed status differs. -/
theorem createCurationReview_ok_char (db : DB) (input : CreateCurationReviewInput)
    (now newId : Nat) (db' : DB) (r : CurationReview)
    (h : createCurationReview db input now newId = Except.ok (db', r)) :
    ∃ ds, db.datasets.find? (fun d => d.id == input.dataset_id) = some ds
      ∧ r = newReviewRow input now newId
      ∧ db' = (if reviewNewStatus ds.status input.status ≠ ds.status then
          { db with
              reviews := db.reviews ++ [newReviewRow input now newId]
              datasets := db.datasets.map (fun d =>
                if d.id = input.dataset_id then
                  { d with status := reviewNewStatus ds.status input.status, updated_at := now }
                else d) }
        else { db with reviews := db.reviews ++ [newReviewRow input now newId] }) := by
  unfold createCurationReview at h
  cases hu : db.users.find? (fun u => u.id == input.reviewer_id) with
  | none => rw [hu] at h; exact Except.noConfusion h
  | some reviewer =>
    rw [hu] at h
    dsimp only at h
    split at h
    · exact Except.noConfusion h
    · cases hd : db.datasets.find? (fun d => d.id == input.dataset_id) with
      | none => rw [hd] at h; exact Except.noConfusion h
      | some ds =>
        rw [hd] at h
        dsimp only at h
        split at h
        · exact Except.noConfusion h
        · cases h
          exact ⟨ds, rfl, rfl, rfl⟩

/-- **C1**: after every successful `createCurationReview`, the dataset's
status is exactly the claimed function of its prior status and the review's
status: `approved` promotes exactly from `review` to `approved`, `rejected`
always resets to `draft`, `pending` changes nothing. -/
theorem curationReviewStatusTransition (db : DB) (input : CreateCurationReviewInput)
    (now newId : Nat) (db' : DB) (r : CurationReview) (ds : Dataset)
    (h : createCurationReview db input now newId = Except.ok (db', r))
    (hds : db.datasets.find? (fun d => d.id == input.dataset_id) = some ds) :
    (db'.datasets.find? (fun d => d.id == input.dataset_id)).map Dataset.status
      = some (specStatusTransition ds.status input.status) := by
  obtain ⟨ds0, hds0, -, hdb⟩ := createCurationReview_ok_char db input now newId db' r h
  rw [hds0] at hds
  cases hds
  subst hdb
  by_cases hst : reviewNewStatus ds.status input.status ≠ ds.status
  · rw [if_pos hst]
    dsimp only
    rw [find?_updateById db.datasets input.dataset_id _ now ds hds0]
    simp [reviewNewStatus_eq_spec]
  · rw [if_neg hst]
    dsimp only
    rw [hds0]
    rw [not_not] at hst
    simp [← reviewNewStatus_eq_spec, hst]

/-- Witness for C1: approving the example dataset (status `review`) moves
it to `approved`. -/
theorem curationReviewStatusTransition_witness :
    (exDBApproved.datasets.find? (fun d => d.id == 10)).map Dataset.status
      = some (specStatusTransition DatasetStatus.review ReviewStatus.approved) :=
  curationReviewStatusTransition exDB exApproveInput 5 30 exDBApproved
    (newReviewRow exApproveInput 5 30) (exDataset DatasetStatus.review)
    (by rfl) (by decide)

/-- **C10** (frame): every successful `createCurationReview` inserts the
review row unconditionally (also when no transition fires), touches no user
or profile row, and rewrites only the reviewed dataset — and only its
`status` and `updated_at` fields — exactly when the computed status differs
from the current one. -/
theorem curationReviewFrame (db : DB) (input : CreateCurationReviewInput)
    (now newId : Nat) (db' : DB) (r : CurationReview) (ds : Dataset)
    (h : createCurationReview db input now newId = Except.ok (db', r))
    (hds : db.datasets.find? (fun d => d.id == input.dataset_id) = some ds) :
    r = newReviewRow input now newId
    ∧ db'.users = db.users
    ∧ db'.profiles = db.profiles
    ∧ db'.reviews = db.reviews ++ [newReviewRow input now newId]
    ∧ (reviewNewStatus ds.status input.status = ds.status → db'.datasets = db.datasets)
    ∧ (reviewNewStatus ds.status input.status ≠ ds.status →
        db'.datasets = db.datasets.map (fun d =>
          if d.id = input.dataset_id then
            { d with status := reviewNewStatus ds.status input.status, updated_at := now }
          else d)) := by
  obtain ⟨ds0, hds0, hr, hdb⟩ := createCurationReview_ok_char db input now newId db' r h
  rw [hds0] at hds
  cases hds
  subst hdb
  by_cases hst : reviewNewStatus ds.status input.status ≠ ds.status
  · rw [if_pos hst]
    exact ⟨hr, rfl, rfl, rfl, fun hc => absurd hc hst, fun _ => rfl⟩
  · rw [if_neg hst]
    exact ⟨hr, rfl, rfl, rfl, fun _ => rfl, fun hc => absurd hc hst⟩

/-- Witness for C10: a `pending` review on the example dataset inserts the
review row and leaves every dataset row unchanged. -/
theorem curationReviewFrame_witness :
    exDBPending.reviews = exDB.reviews ++ [newReviewRow exPendingInput 5 31]
    ∧ exDBPending.datasets = exDB.datasets :=
  ⟨(curationReviewFrame exDB exPendingInput 5 31 exDBPending
      (newReviewRow exPendingInput 5 31) (exDataset DatasetStatus.review)
      (by rfl) (by decide)).2.2.2.1,
   (curationReviewFrame exDB exPendingInput 5 31 exDBPending
      (newReviewRow exPendingInput 5 31) (exDataset DatasetStatus.review)
      (by rfl) (by decide)).2.2.2.2.1 (by decide)⟩

/-- **C6**: creating a second profile for a user that already has one, and a
second review by the same reviewer for the same dataset, always fail with
`Conflict` — in the latter case under the handler's standing requirements
(reviewer exists with curator/admin role, dataset exists).  Both checks run
before the insert, so an error return carries no state change. -/
theorem duplicateCreationConflicts :
    (∀ (db : DB) (input : CreateProfileInput) (now newId : Nat) (u : User) (p : Profile),
      db.users.find? (fun x => x.id == input.user_id) = some u →
      p ∈ db.profiles → p.user_id = input.user_id →
      ∃ msg, createProfile db input now newId = Except.error (DomainError.conflict msg))
    ∧ (∀ (db : DB) (input : CreateCurationReviewInput) (now newId : Nat)
        (u : User) (ds : Dataset) (r : CurationReview),
      db.users.find? (fun x => x.id == input.reviewer_id) = some u →
      (u.role = Role.curator ∨ u.role = Role.admin) →
      db.datasets.find? (fun x => x.id == input.dataset_id) = some ds →
      r ∈ db.reviews → r.dataset_id = input.dataset_id → r.reviewer_id = input.reviewer_id →
      ∃ msg, createCurationReview db input now newId
        = Except.error (DomainError.conflict msg)) := by
  constructor
  · intro db input now newId u p hu hp hpid
    refine ⟨"User with id " ++ toString input.user_id ++ " already has a profile", ?_⟩
    unfold createProfile
    rw [hu]
    dsimp only
    have hmem : p ∈ db.profiles.filter (fun q => q.user_id == input.user_id) :=
      List.mem_filter.mpr ⟨hp, by simp [hpid]⟩
    rw [if_pos (List.length_pos.mpr (List.ne_nil_of_mem hmem))]
  · intro db input now newId u ds r hu hrole hd hr hrd hrr
    refine ⟨"Review already exists for this dataset and reviewer", ?_⟩
    unfold createCurationReview
    rw [hu]
    dsimp only
    rw [if_neg (by rcases hrole with h | h <;> simp [h])]
    rw [hd]
    dsimp only
    have hmem : r ∈ db.reviews.filter (fun x =>
        x.dataset_id == input.dataset_id && x.reviewer_id == input.reviewer_id) :=
      List.mem_filter.mpr ⟨hr, by simp [hrd, hrr]⟩
    rw [if_pos (List.length_pos.mpr (List.ne_nil_of_mem hmem))]

/-- Witness for C6: the second profile for `exContributor` and the second
review by `exCurator` on the example dataset both fail with `Conflict`. -/
theorem duplicateCreationConflicts_witness :
    (∃ msg, createProfile exDB exProfileInput 0 50 = Except.error (DomainError.conflict msg))
    ∧ (∃ msg, createCurationReview exDBWithReview exApproveInput 9 60
        = Except.error (DomainError.conflict msg)) :=
  ⟨duplicateCreationConflicts.1 exDB exProfileInput 0 50 exContributor exProfile
      (by decide) (by decide) (by decide),
   duplicateCreationConflicts.2 exDBWithReview exApproveInput 9 60 exCurator
      (exDataset DatasetStatus.review) exReview (by decide) (Or.inl rfl)
      (by decide) (by decide) (by decide) (by decide)⟩

/-- **C7**: `createDataset` fails `NotFound` when the contributor does not
exist, fails `PermissionDenied` when the contributor is a `viewer`, and
succeeds — returning the persisted dataset appended to the store — when the
contributor's role is `contributor`, `curator` or `admin`. -/
theorem createDatasetRoleGate :
    ∀ (db : DB) (input : CreateDatasetInput) (now newId : Nat),
    (db.users.find? (fun u => u.id == input.contributor_id) = none →
      createDataset db input now newId
        = Except.error (DomainError.notFound "Contributor not found"))
    ∧ (∀ u, db.users.find? (fun x => x.id == input.contributor_id) = some u →
        u.role = Role.viewer →
        createDataset db input now newId
          = Except.error (DomainError.permissionDenied
              "User does not have permission to create datasets"))
    ∧ (∀ u, db.users.find? (fun x => x.id == input.contributor_id) = some u →
        (u.role = Role.contributor ∨ u.role = Role.curator ∨ u.role = Role.admin) →
        createDataset db input now newId
          = Except.ok ({ db with datasets := db.datasets ++ [newDatasetRow input now newId] },
              newDatasetRow input now newId)) := by
  intro db input now newId
  refine ⟨?_, ?_, ?_⟩
  · intro h
    unfold createDataset
    rw [h]
  · intro u hu hrole
    unfold createDataset
    rw [hu]
    dsimp only
    rw [if_neg (by rw [hrole]; decide)]
  · intro u hu hrole
    unfold createDataset
    rw [hu]
    dsimp only
    rw [if_pos (by rcases hrole with h | h | h <;> rw [h] <;> decide)]

/-- Witness for C7: `exContributor` succeeds, `exViewer` is denied. -/
theorem createDatasetRoleGate_witness :
    createDataset exDB exDatasetInput 3 70
      = Except.ok ({ exDB with datasets := exDB.datasets ++ [newDatasetRow exDatasetInput 3 70] },
          newDatasetRow exDatasetInput 3 70)
    ∧ createDataset exDB exViewerDatasetInput 3 71
      = Except.error (DomainError.permissionDenied
          "User does not have permission to create datasets") :=
  ⟨(createDatasetRoleGate exDB exDatasetInput 3 70).2.2 exContributor (by decide) (Or.inl rfl),
   (createDatasetRoleGate exDB exViewerDatasetInput 3 71).2.1 exViewer (by decide) rfl⟩

/-! ## C9: citation formatting -/

/-- **C9 counterexample**: a dataset whose DOI is *present* but the empty
string renders the no-DOI fallbacks (`Unimus Repository.` / `[Database]`)
in both styles — the source tests the DOI for JavaScript truthiness, so an
empty-string DOI is treated as absent, contradicting "whenever a DOI is
present it is rendered as `https://doi.org/{doi}`". -/
theorem citationEmptyDoiCounterexample :
    exDatasetEmptyDoi.doi.isSome = true
    ∧ generateCitation exDB exDatasetEmptyDoi
        = { apa := "A. (2022). T [Dataset]. Unimus Repository."
            ieee := "A, \"T,\" Dataset, 2022. [Database]" } := by
  refine ⟨rfl, ?_⟩
  decide

/-- **C9 amended**: with no DOI, publication year 2022, title `T` and an
author resolving to `A`, the APA and IEEE strings are exactly the claimed
literals; and whenever a *non-empty* DOI is present it is rendered as
`https://doi.org/{doi}` in both styles (an empty-string DOI is treated as
absent). -/
theorem citationFormat :
    (∀ (db : DB) (ds : Dataset),
      ds.doi = none → ds.publication_year = 2022 → ds.title = "T" →
      citationAuthor db ds = "A" →
      generateCitation db ds
        = { apa := "A. (2022). T [Dataset]. Unimus Repository."
            ieee := "A, \"T,\" Dataset, 2022. [Database]" })
    ∧ (∀ (db : DB) (ds : Dataset) (d : String),
      ds.doi = some d → d ≠ "" →
      (generateCitation db ds).apa
          = citationAuthor db ds ++ ". (" ++ toString ds.publication_year ++ "). " ++
            ds.title ++ " [Dataset]. " ++ ("https://doi.org/" ++ d) ++ "."
      ∧ (generateCitation db ds).ieee
          = citationAuthor db ds ++ ", \"" ++ ds.title ++ ",\" Dataset, " ++
            toString ds.publication_year ++ "." ++ (" [Online]. Available: " ++
            ("https://doi.org/" ++ d))) := by
  constructor
  · intro db ds h1 h2 h3 h4
    unfold generateCitation
    rw [h4]
    unfold citationDoiUrl
    rw [h1, h2, h3]
    rfl
  · intro db ds d h1 h2
    unfold generateCitation citationDoiUrl
    rw [h1]
    dsimp only
    rw [if_neg h2]
    exact ⟨rfl, rfl⟩

/-- Witness for C9 (amended): the example database realises both the no-DOI
scenario and the rendering of a present DOI. -/
theorem citationFormat_witness :
    generateCitation exDB exDatasetByA
      = { apa := "A. (2022). T [Dataset]. Unimus Repository."
          ieee := "A, \"T,\" Dataset, 2022. [Database]" }
    ∧ (generateCitation exDB exDatasetWithDoi).apa
        = citationAuthor exDB exDatasetWithDoi ++ ". (" ++
          toString exDatasetWithDoi.publication_year ++ "). " ++
          exDatasetWithDoi.title ++ " [Dataset]. " ++
          ("https://doi.org/" ++ "10.1/x") ++ "." := by
  constructor
  · exact citationFormat.1 exDB exDatasetByA rfl rfl rfl (by decide)
  · exact (citationFormat.2 exDB exDatasetWithDoi "10.1/x" rfl (by decide)).1

/-! ## C4: the profile-filter asymmetry of the report aggregator -/

/-- Membership through `insertDescBy`. -/
theorem mem_insertDescBy {α : Type} (val : α → Nat) (x y : α) (l : List α)
    (h : y ∈ insertDescBy val x l) : y = x ∨ y ∈ l := by
  induction l with
  | nil =>
    simp [insertDescBy] at h
    exact Or.inl h
  | cons z zs ih =>
    unfold insertDescBy at h
    split at h
    · rcases List.mem_cons.mp h with h | h
      · exact Or.inl h
      · exact Or.inr h
    · rcases List.mem_cons.mp h with h | h
      · exact Or.inr (List.mem_cons.mpr (Or.inl h))
      · rcases ih h with h | h
        · exact Or.inl h
        · exact Or.inr (List.mem_cons.mpr (Or.inr h))

/-- `sortDescBy` only permutes: members come from the input list. -/
theorem mem_sortDescBy {α : Type} (val : α → Nat) (y : α) (l : List α)
    (h : y ∈ sortDescBy val l) : y ∈ l := by
  induction l with
  | nil => simp [sortDescBy] at h
  | cons x xs ih =>
    unfold sortDescBy at h
    rcases mem_insertDescBy val x y _ h with h | h
    · simp [h]
    · simp [ih h]

/-- Every group of `groupCounts` is keyed by some input row. -/
theorem mem_groupCounts {α κ : Type} [DecidableEq κ] (key : α → κ) (rows : List α)
    (e : κ × Nat) (h : e ∈ groupCounts key rows) : ∃ r ∈ rows, key r = e.1 := by
  unfold groupCounts at h
  obtain ⟨k, hk, he⟩ := List.mem_map.mp h
  subst he
  have hk' : k ∈ rows.map key := List.mem_dedup.mp hk
  obtain ⟨r, hr, hkr⟩ := List.mem_map.mp hk'
  exact ⟨r, hr, hkr⟩

/-- **C4**: the profile-dependent filters (`profile_type`, `department`)
have no effect on `totalDatasets` and `datasetsByYear`, which honor only
the base filters; while `datasetsByContributor` and `departmentBreakdown`
are constrained by them — every emitted group is keyed by a join row that
passes both the base and the profile filters. -/
theorem reportProfileFilterAsymmetry :
    ∀ (db : DB) (f : ReportFilter),
    (generateReports db f).totalDatasets
        = (generateReports db (clearProfileFilters f)).totalDatasets
    ∧ (generateReports db f).datasetsByYear
        = (generateReports db (clearProfileFilters f)).datasetsByYear
    ∧ (∀ e ∈ (generateReports db f).datasetsByContributor,
        ∃ row, row ∈ contributorJoin db ∧ baseFilter f row.1 = true
          ∧ profileFilter f row.2.2 = true ∧ row.1.contributor_id = e.contributorId)
    ∧ (∀ e ∈ (generateReports db f).departmentBreakdown,
        ∃ row, row ∈ contributorProfileJoin db ∧ baseFilter f row.1 = true
          ∧ profileFilter f (some row.2.2) = true
          ∧ row.2.2.department = e.department) := by
  intro db f
  refine ⟨rfl, rfl, ?_, ?_⟩
  · intro e he
    unfold generateReports at he
    dsimp only at he
    obtain ⟨gc, hgc, hge⟩ := List.mem_map.mp he
    obtain ⟨row, hrow, hkey⟩ :=
      mem_groupCounts _ _ _ (mem_sortDescBy _ _ _ hgc)
    have hrf := List.mem_filter.mp hrow
    have hpred : baseFilter f row.1 = true ∧ profileFilter f row.2.2 = true := by
      simpa using hrf.2
    refine ⟨row, hrf.1, hpred.1, hpred.2, ?_⟩
    subst hge
    exact congrArg Prod.fst hkey
  · intro e he
    unfold generateReports at he
    dsimp only at he
    obtain ⟨gc, hgc, hge⟩ := List.mem_map.mp he
    obtain ⟨row, hrow, hkey⟩ :=
      mem_groupCounts _ _ _ (mem_sortDescBy _ _ _ hgc)
    have hrf := List.mem_filter.mp hrow
    have hpred : baseFilter f row.1 = true ∧ profileFilter f (some row.2.2) = true := by
      simpa using hrf.2
    refine ⟨row, hrf.1, hpred.1, hpred.2, ?_⟩
    subst hge
    exact hkey

/-- Witness for C4: with both profile filters set on the example database
(student profile in department `Math`), `totalDatasets` matches the
filterless value and the single contributor group is backed by a join row
passing the profile filters. -/
theorem reportProfileFilterAsymmetry_witness :
    (generateReports exDB exReportFilter).totalDatasets
        = (generateReports exDB (clearProfileFilters exReportFilter)).totalDatasets
    ∧ (∃ row, row ∈ contributorJoin exDB ∧ baseFilter exReportFilter row.1 = true
        ∧ profileFilter exReportFilter row.2.2 = true
        ∧ row.1.contributor_id
            = (ContributorCount.mk 2 "con@u.edu" 1).contributorId) :=
  ⟨(reportProfileFilterAsymmetry exDB exReportFilter).1,
   (reportProfileFilterAsymmetry exDB exReportFilter).2.2.1
     (ContributorCount.mk 2 "con@u.edu" 1) (by decide)⟩

end Unimus
